import Mathlib

/-!
Verification development for the session/token lifecycle subsystem of the
mgl-backend repository. Timestamps are modelled as integer seconds on a
single timeline; every `now` argument stands for the wall clock read the
source takes at that point. Python dict payloads become structures, raised
exceptions become `Except` error values, and the session table becomes a
list of rows.
-/

namespace MGL

/-! ## SHA-256 (`hashlib.sha256`), bytes as `Nat` values below 256 -/

/-- Wrap to a 32-bit word. -/
def w32 (n : Nat) : Nat := n % 4294967296

/-- Rotate a 32-bit word right by `n` bits. -/
def rotr32 (x n : Nat) : Nat := w32 ((x >>> n) ||| (x <<< (32 - n)))

def bigSigma0 (x : Nat) : Nat := rotr32 x 2 ^^^ rotr32 x 13 ^^^ rotr32 x 22

def bigSigma1 (x : Nat) : Nat := rotr32 x 6 ^^^ rotr32 x 11 ^^^ rotr32 x 25

def smallSigma0 (x : Nat) : Nat := rotr32 x 7 ^^^ rotr32 x 18 ^^^ (x >>> 3)

def smallSigma1 (x : Nat) : Nat := rotr32 x 17 ^^^ rotr32 x 19 ^^^ (x >>> 10)

def chF (x y z : Nat) : Nat := (x &&& y) ^^^ ((x ^^^ 4294967295) &&& z)

def majF (x y z : Nat) : Nat := (x &&& y) ^^^ (x &&& z) ^^^ (y &&& z)

/-- The 64 SHA-256 round constants, in decimal. -/
def sha256K : List Nat :=
  [1116352408, 1899447441, 3049323471, 3921009573, 961987163,
   1508970993, 2453635748, 2870763221, 3624381080, 310598401,
   607225278, 1426881987, 1925078388, 2162078206, 2614888103,
   3248222580, 3835390401, 4022224774, 264347078, 604807628,
   770255983, 1249150122, 1555081692, 1996064986, 2554220882,
   2821834349, 2952996808, 3210313671, 3336571891, 3584528711,
   113926993, 338241895, 666307205, 773529912, 1294757372,
   1396182291, 1695183700, 1986661051, 2177026350, 2456956037,
   2730485921, 2820302411, 3259730800, 3345764771, 3516065817,
   3600352804, 4094571909, 275423344, 430227734, 506948616,
   659060556, 883997877, 958139571, 1322822218, 1537002063,
   1747873779, 1955562222, 2024104815, 2227730452, 2361852424,
   2428436474, 2756734187, 3204031479, 3329325298]

/-- The initial SHA-256 hash state, in decimal. -/
def sha256H0 : List Nat :=
  [1779033703, 3144134277, 1013904242, 2773480762,
   1359893119, 2600822924, 528734635, 1541459225]

/-- Big-endian 32-bit word from up to four bytes. -/
def word32be (l : List Nat) : Nat := l.foldl (fun acc b => acc * 256 + b % 256) 0

/-- Big-endian bytes of a 64-bit length field. -/
def u64be (n : Nat) : List Nat :=
  [(n >>> 56) % 256, (n >>> 48) % 256, (n >>> 40) % 256, (n >>> 32) % 256,
   (n >>> 24) % 256, (n >>> 16) % 256, (n >>> 8) % 256, n % 256]

/-- Big-endian bytes of a 32-bit word. -/
def u32be (n : Nat) : List Nat :=
  [(n >>> 24) % 256, (n >>> 16) % 256, (n >>> 8) % 256, n % 256]

/-- SHA-256 message padding: a 0x80 byte, zeros to 56 mod 64, then the
bit length as a big-endian 64-bit field. -/
def sha256Pad (msg : List Nat) : List Nat :=
  msg ++ [128] ++ List.replicate ((119 - msg.length % 64) % 64) 0 ++ u64be (msg.length * 8)

/-- Expand one 64-byte block to the 64-word message schedule. -/
def sha256Schedule (block : List Nat) : List Nat :=
  let w0 := (List.range 16).map (fun i => word32be ((block.drop (4 * i)).take 4))
  (List.range 48).foldl (fun W _ =>
    let i := W.length
    W ++ [w32 (W.getD (i - 16) 0 + smallSigma0 (W.getD (i - 15) 0) +
               W.getD (i - 7) 0 + smallSigma1 (W.getD (i - 2) 0))]) w0

/-- The eight working variables of the compression loop. -/
structure Sha256St where
  a : Nat
  b : Nat
  c : Nat
  d : Nat
  e : Nat
  f : Nat
  g : Nat
  h : Nat
deriving DecidableEq, Repr

/-- One SHA-256 round; `kw` is the round constant plus the schedule word. -/
def sha256Round (st : Sha256St) (kw : Nat) : Sha256St :=
  let t1 := w32 (st.h + bigSigma1 st.e + chF st.e st.f st.g + kw)
  let t2 := w32 (bigSigma0 st.a + majF st.a st.b st.c)
  ⟨w32 (t1 + t2), st.a, st.b, st.c, w32 (st.d + t1), st.e, st.f, st.g⟩

/-- Compress one 64-byte block into the running 8-word hash state. -/
def sha256Compress (H : List Nat) (block : List Nat) : List Nat :=
  let W := sha256Schedule block
  let st0 : Sha256St :=
    ⟨H.getD 0 0, H.getD 1 0, H.getD 2 0, H.getD 3 0,
     H.getD 4 0, H.getD 5 0, H.getD 6 0, H.getD 7 0⟩
  let fin := (List.range 64).foldl
    (fun st t => sha256Round st (w32 (sha256K.getD t 0 + W.getD t 0))) st0
  [w32 (H.getD 0 0 + fin.a), w32 (H.getD 1 0 + fin.b), w32 (H.getD 2 0 + fin.c),
   w32 (H.getD 3 0 + fin.d), w32 (H.getD 4 0 + fin.e), w32 (H.getD 5 0 + fin.f),
   w32 (H.getD 6 0 + fin.g), w32 (H.getD 7 0 + fin.h)]

/-- SHA-256 digest of a byte list: 32 bytes. -/
def sha256Bytes (msg : List Nat) : List Nat :=
  let padded := sha256Pad msg
  let Hfin := (List.range (padded.length / 64)).foldl
    (fun H i => sha256Compress H ((padded.drop (64 * i)).take 64)) sha256H0
  (Hfin.map u32be).flatten

/-! ## HMAC-SHA256 (`hmac.new(key, msg, hashlib.sha256).digest()`) -/

def hmacSha256 (key msg : List Nat) : List Nat :=
  let k1 := if 64 < key.length then sha256Bytes key else key
  let k0 := k1 ++ List.replicate (64 - k1.length) 0
  sha256Bytes ((k0.map (fun b => b ^^^ 92)) ++ sha256Bytes ((k0.map (fun b => b ^^^ 54)) ++ msg))

/-! ## UTF-8 (`str.encode("utf-8")`) and `base64.urlsafe_b64encode` -/

/-- UTF-8 bytes of one code point. -/
def utf8Enc (c : Nat) : List Nat :=
  if c < 128 then [c]
  else if c < 2048 then [192 ||| (c >>> 6), 128 ||| (c &&& 63)]
  else if c < 65536 then
    [224 ||| (c >>> 12), 128 ||| ((c >>> 6) &&& 63), 128 ||| (c &&& 63)]
  else
    [240 ||| (c >>> 18), 128 ||| ((c >>> 12) &&& 63),
     128 ||| ((c >>> 6) &&& 63), 128 ||| (c &&& 63)]

/-- UTF-8 bytes of a string. -/
def strBytes (s : String) : List Nat := (s.toList.map (fun c => utf8Enc c.toNat)).flatten

/-- The URL-safe base64 alphabet. -/
def b64Chars : List Char :=
  "ABCDEFGHIJKLMNOPQRSTUVWXYZabcdefghijklmnopqrstuvwxyz0123456789-_".toList

def b64c (n : Nat) : Char := b64Chars.getD n 'A'

/-- Encode one group of up to three bytes as four base64 characters, padding
with `=` as `base64.urlsafe_b64encode` does. -/
def b64Group (g : List Nat) : List Char :=
  match g with
  | [b0] => [b64c (b0 >>> 2), b64c ((b0 &&& 3) <<< 4), '=', '=']
  | [b0, b1] =>
    [b64c (b0 >>> 2), b64c (((b0 &&& 3) <<< 4) ||| (b1 >>> 4)),
     b64c ((b1 &&& 15) <<< 2), '=']
  | [b0, b1, b2] =>
    [b64c (b0 >>> 2), b64c (((b0 &&& 3) <<< 4) ||| (b1 >>> 4)),
     b64c (((b1 &&& 15) <<< 2) ||| (b2 >>> 6)), b64c (b2 &&& 63)]
  | _ => []

/-- URL-safe base64 encoding of a byte list. -/
def base64urlEncode (bs : List Nat) : String :=
  String.mk (((List.range ((bs.length + 2) / 3)).map
    (fun i => b64Group ((bs.drop (3 * i)).take 3))).flatten)

/-! ## app/core/security.py -/

/-- The process-wide signing key. It is immutable configuration read from the
environment; its concrete value is irrelevant to every property below, so it
is fixed to an arbitrary constant. -/
def SECRET_KEY : String := "mgl-signing-key"

/-- Claim bundle of a JWT: `id`, and for refresh tokens `sid` and
`type = "refresh"`; `exp` is the expiry instant. Absent dict keys are `none`. -/
structure TokenPayload where
  id : Int
  sid : Option String
  typ : Option String
  exp : Int
deriving DecidableEq, Repr

/-- A signed token as `jose.jwt.encode` produces it: the claims together with
the key that signed them. Decoding with the right key recovers exactly the
claims; decoding with any other key fails, which models signature checking. -/
structure Jwt where
  payload : TokenPayload
  key : String
deriving DecidableEq, Repr

/-- Model of `jwt.decode`: the signature must verify and `exp` must not have
passed. -/
def jwtDecode (t : Jwt) (key : String) (now : Int) : Option TokenPayload :=
  if t.key = key ∧ now < t.payload.exp then some t.payload else none

/-- Message of the `ValueError` raised for a falsy `user_id`. -/
def valueErrorMsg : String := "Token payload must contain user_id"

/-- Python truthiness of the `user_id` argument: `None` and `0` are falsy. -/
def truthyId : Option Int → Bool
  | none => false
  | some n => n != 0

/-- The token `create_access_token` signs once its guard has passed:
`{id: user_id, exp: now + 15 minutes}`. -/
def mk_access_token (uid : Int) (now : Int) : Jwt :=
  ⟨⟨uid, none, none, now + 900⟩, SECRET_KEY⟩

/-- `create_access_token`: raises `ValueError` on a falsy `user_id`, else
signs a 15-minute access token. -/
def create_access_token (user_id : Option Int) (now : Int) : Except String Jwt :=
  if truthyId user_id then .ok (mk_access_token (user_id.getD 0) now)
  else .error valueErrorMsg

/-- The token `create_refresh_token` signs once its guard has passed:
`{id, sid, type: "refresh", exp: now + 7 days}`. -/
def mk_refresh_token (uid : Int) (sid : String) (now : Int) : Jwt :=
  ⟨⟨uid, some sid, some "refresh", now + 604800⟩, SECRET_KEY⟩

/-- `create_refresh_token`: raises `ValueError` on a falsy `user_id`, else
signs a 7-day refresh token. -/
def create_refresh_token (user_id : Option Int) (sid : String) (now : Int) :
    Except String Jwt :=
  if truthyId user_id then .ok (mk_refresh_token (user_id.getD 0) sid now)
  else .error valueErrorMsg

/-- An `HTTPException` as the routes raise it. -/
structure HttpError where
  status_code : Nat
  detail : String
deriving DecidableEq, Repr

/-- `decode_token`: any `JWTError` (bad signature, malformed, expired) becomes
a 401 with the one fixed detail string. -/
def decode_token (t : Jwt) (now : Int) : Except HttpError TokenPayload :=
  match jwtDecode t SECRET_KEY now with
  | some p => .ok p
  | none => .error ⟨401, "Invalid or expired token"⟩

/-- The wire form of a token, as it travels in the cookie; `hash_token` is
applied to this string. -/
def serializeJwt (t : Jwt) : String :=
  String.intercalate "." [toString t.payload.id, t.payload.sid.getD "",
    t.payload.typ.getD "", toString t.payload.exp, t.key]

/-- `hash_token`: HMAC-SHA256 of the token keyed by the signing key, then
URL-safe base64. -/
def hash_token (token : String) : String :=
  base64urlEncode (hmacSha256 (strBytes SECRET_KEY) (strBytes token))

/-- `verify_token`: recompute the digest and compare
(`hmac.compare_digest`, whose value is plain string equality). -/
def verify_token (token refresh_token_hash : String) : Bool :=
  hash_token token == refresh_token_hash

/-- The caller record the external user directory returns. -/
structure UserPublic where
  id : Int
  role : String
  is_active : Bool
deriving DecidableEq, Repr

def ROLE_ORGANIZER : String := "organizer"

def ROLE_ADMIN : String := "admin"

def ROLE_SYSADMIN : String := "sysadmin"

/-- `get_current_user`: the bearer scheme has `auto_error=False`, so a request
with no (or non-bearer) Authorization header reaches the function with
`credentials = None`, and `credentials.credentials` then raises an unhandled
`AttributeError`, surfaced by the framework as a 500; with a presented token
it decodes, rejects a falsy `id`, loads the user from the directory, and
rejects an inactive account with 403. -/
def get_current_user (credentials : Option Jwt) (dir : Int → Option UserPublic)
    (now : Int) : Except HttpError UserPublic :=
  match credentials with
  | none => .error ⟨500, "AttributeError"⟩
  | some tok =>
    match decode_token tok now with
    | .error e => .error e
    | .ok payload =>
      if payload.id = 0 then .error ⟨401, "Invalid or expired token"⟩
      else
        match dir payload.id with
        | none => .error ⟨401, "User not found"⟩
        | some u =>
          if u.is_active then .ok u
          else .error ⟨403, "Account is inactive. Please contact support."⟩

/-- `require_user`: passes the resolved user through (its own falsy check is
unreachable because `get_current_user` never returns a falsy user). -/
def require_user (credentials : Option Jwt) (dir : Int → Option UserPublic)
    (now : Int) : Except HttpError UserPublic :=
  match get_current_user credentials dir now with
  | .error e => .error e
  | .ok u => .ok u

/-- `require_organizer`: rejects with 403 unless the role string equals
`"organizer"`. -/
def require_organizer (credentials : Option Jwt) (dir : Int → Option UserPublic)
    (now : Int) : Except HttpError UserPublic :=
  match get_current_user credentials dir now with
  | .error e => .error e
  | .ok u =>
    if u.role != ROLE_ORGANIZER then
      .error ⟨403, "You must be an organizer to access this route."⟩
    else .ok u

/-- `require_admin`: rejects with 403 unless the role string equals `"admin"`. -/
def require_admin (credentials : Option Jwt) (dir : Int → Option UserPublic)
    (now : Int) : Except HttpError UserPublic :=
  match get_current_user credentials dir now with
  | .error e => .error e
  | .ok u =>
    if u.role != ROLE_ADMIN then
      .error ⟨403, "You must be an admin to access this route."⟩
    else .ok u

/-- `require_superadmin`: rejects with 403 unless the role string equals
`"sysadmin"`. -/
def require_superadmin (credentials : Option Jwt) (dir : Int → Option UserPublic)
    (now : Int) : Except HttpError UserPublic :=
  match get_current_user credentials dir now with
  | .error e => .error e
  | .ok u =>
    if u.role != ROLE_SYSADMIN then
      .error ⟨403, "You must be a superadmin to access this route."⟩
    else .ok u

/-! ## app/db/models/refresh_sessions.py and app/db/repositories/ref_sessions_repo.py

The services layer only logs and delegates, so the repository functions are
modelled directly. The table is a list of rows; the primary key constraint
(one row per `session_id`) is the `Nodup` invariant proved below. -/

/-- A row of the `refresh_sessions` table. -/
structure RefreshSession where
  session_id : String
  user_id : Int
  refresh_token_hash : String
  revoked_at : Option Int
  replaced_by_sid : Option String
  expires_at : Int
  created_at : Int
deriving DecidableEq, Repr

/-- The session table. -/
abbrev Store := List RefreshSession

/-- The projection `RefreshSessionOut` of app/schemas/refresh_session.py:
the Pydantic DTO that repository reads return. It declares only these four
fields; in particular `revoked_at` and `replaced_by_sid` are NOT among them,
and reading an undeclared attribute off a Pydantic model raises
`AttributeError`. -/
structure RefreshSessionOut where
  session_id : String
  user_id : Int
  refresh_token_hash : String
  expires_at : Int
deriving DecidableEq, Repr

/-- `RefreshSessionOut.model_validate`: project a table row to the four
declared DTO fields. -/
def RefreshSessionOut.ofRow (s : RefreshSession) : RefreshSessionOut :=
  ⟨s.session_id, s.user_id, s.refresh_token_hash, s.expires_at⟩

/-- The row a SELECT by `session_id` finds (`scalar_one_or_none`), before
any projection. -/
def find_refresh_session_row (st : Store) (sid : String) : Option RefreshSession :=
  st.find? (fun s => s.session_id == sid)

/-- `get_refresh_session_repo`: select by `session_id`, then return
`RefreshSessionOut.model_validate(...)` — the projected DTO, not the row. -/
def get_refresh_session_repo (st : Store) (sid : String) : Option RefreshSessionOut :=
  (find_refresh_session_row st sid).map RefreshSessionOut.ofRow

/-- `create_refresh_session_repo`: insert a new row; `revoked_at` and
`replaced_by_sid` start as NULL and `created_at` defaults to `now`. -/
def create_refresh_session_repo (st : Store) (sid : String) (uid : Int)
    (token_hash : String) (exp : Int) (now : Int) : Store :=
  st ++ [⟨sid, uid, token_hash, none, none, exp, now⟩]

/-- `revoke_refresh_session_repo`: on the row keyed `sid`, set
`revoked_at = now` and `replaced_by_sid = newSid`. -/
def revoke_refresh_session_repo (st : Store) (sid newSid : String) (now : Int) :
    Store :=
  st.map (fun s => if s.session_id == sid then
    { s with revoked_at := some now, replaced_by_sid := some newSid } else s)

/-- `delete_refresh_session_repo`: delete the row keyed `sid`; the flag says
whether a row was found. -/
def delete_refresh_session_repo (st : Store) (sid : String) : Store × Bool :=
  (st.filter (fun s => s.session_id != sid), (find_refresh_session_row st sid).isSome)

/-- SQL test `expires_at < cutoff` of the first sweep DELETE. -/
def expiredOld (cutoff : Int) (s : RefreshSession) : Bool :=
  decide (s.expires_at < cutoff)

/-- SQL test `revoked_at < cutoff` of the second sweep DELETE; NULL compares
false. -/
def revokedOld (cutoff : Int) (s : RefreshSession) : Bool :=
  match s.revoked_at with
  | some r => decide (r < cutoff)
  | none => false

/-- `cleanup_expired_and_revoked_sessions_repo`: two sequential DELETEs with
`cutoff = now - hours`, returning the summed rowcounts. -/
def cleanup_expired_and_revoked_sessions_repo (st : Store) (hours : Int)
    (now : Int) : Store × Nat :=
  let cutoff := now - hours * 3600
  let st1 := st.filter (fun s => !expiredOld cutoff s)
  let st2 := st1.filter (fun s => !revokedOld cutoff s)
  (st2, st.countP (expiredOld cutoff) + st1.countP (revokedOld cutoff))

/-- `cleanup_all_user_sessions_repo`: delete every row of one user, returning
the rowcount. -/
def cleanup_all_user_sessions_repo (st : Store) (uid : Int) : Store × Nat :=
  (st.filter (fun s => s.user_id != uid), st.countP (fun s => s.user_id == uid))

/-- `get_active_session_count_repo`: rows with NULL `revoked_at` and
`expires_at` in the future. -/
def get_active_session_count_repo (st : Store) (now : Int) : Nat :=
  st.countP (fun s => s.revoked_at.isNone && decide (now < s.expires_at))

/-! ## app/api/routers/auth/auth.py

Each route becomes a function from its inputs and the current table to the
response (`Except HttpError _`) paired with the table it leaves behind. The
fresh `uuid4` session identifiers are passed in as arguments; the freshness
the source gets from `uuid4` becomes an explicit hypothesis where needed. -/

/-- Successful body of `POST /auth/login` (cookie carried separately). -/
structure LoginOk where
  access_token : Jwt
  set_cookie : Jwt
deriving DecidableEq, Repr

/-- `POST /auth/login`, entered after password authentication succeeded
(the user directory and password check are external collaborators): issues
the access token, mints a refresh session valid 7 days, stores the token
fingerprint, and sets the cookie. A falsy `user.id` would make
`create_access_token` raise `ValueError`, an unhandled 500. -/
def login_route (user : UserPublic) (sid : String) (st : Store) (now : Int) :
    Except HttpError LoginOk × Store :=
  if !user.is_active then (.error ⟨403, "Inactive user"⟩, st)
  else
    match create_access_token (some user.id) now with
    | .error _ => (.error ⟨500, "ValueError"⟩, st)
    | .ok access =>
      match create_refresh_token (some user.id) sid now with
      | .error _ => (.error ⟨500, "ValueError"⟩, st)
      | .ok refresh =>
        (.ok ⟨access, refresh⟩,
         create_refresh_session_repo st sid user.id
           (hash_token (serializeJwt refresh)) (now + 604800) now)

/-- Successful body of `POST /auth/refresh`: the new access token, and the
new refresh cookie when one was set (the grace branch returns without
setting a cookie). -/
structure RefreshOk where
  access_token : Jwt
  set_cookie : Option Jwt
deriving DecidableEq, Repr

/-- `POST /auth/refresh`, translated from the source as it executes: decode
the cookie, check `type`, falsy claims, session lookup and user match. The
very next statement, `if session.revoked_at:` (auth.py:179), reads an
attribute the projected `RefreshSessionOut` does not declare, so every call
that reaches it dies with an unhandled `AttributeError`, surfaced by the
framework as a 500; the grace-window, expiry-deletion, fingerprint and
replacement code below that line is unreachable. The unused `newSid` argument
is the `uuid4` the dead rotation code would have minted. -/
def refresh_token_route (cookie : Option Jwt) (st : Store) (now : Int)
    (_newSid : String) : Except HttpError RefreshOk × Store :=
  match cookie with
  | none => (.error ⟨401, "No refresh token provided"⟩, st)
  | some rt =>
    match decode_token rt now with
    | .error e => (.error e, st)
    | .ok payload =>
      if payload.typ ≠ some "refresh" then
        (.error ⟨401, "Invalid refresh token"⟩, st)
      else if payload.id = 0 ∨ payload.sid = none ∨ payload.sid = some "" then
        (.error ⟨401, "Invalid refresh token"⟩, st)
      else
        let user_id := payload.id
        let session_id := payload.sid.getD ""
        match get_refresh_session_repo st session_id with
        | none => (.error ⟨401, "Invalid refresh token"⟩, st)
        | some session =>
          if session.user_id ≠ user_id then
            (.error ⟨401, "Invalid refresh token"⟩, st)
          else
            (.error ⟨500, "AttributeError"⟩, st)

/-- The refresh handler's full branch structure, read over the underlying
table rows (as the ORM model of app/db/models/refresh_sessions.py declares
them) instead of the projected DTO: the just-rotated (revoked) grace branch,
which re-fetches the SAME `session_id`; expiry, which deletes the row; the
fingerprint check; and rotation, which creates the successor row and then
revokes the predecessor. In the deployed code the branches from the
`revoked_at` read on are unreachable (see `refresh_token_route`), so this
function describes a superset of the reachable transitions; the protocol
state machine below uses it so the chain invariant is proved over every
transition the handler's code spells out, rotation included. -/
def refresh_token_route_rows (cookie : Option Jwt) (st : Store) (now : Int)
    (newSid : String) : Except HttpError RefreshOk × Store :=
  match cookie with
  | none => (.error ⟨401, "No refresh token provided"⟩, st)
  | some rt =>
    match decode_token rt now with
    | .error e => (.error e, st)
    | .ok payload =>
      if payload.typ ≠ some "refresh" then
        (.error ⟨401, "Invalid refresh token"⟩, st)
      else if payload.id = 0 ∨ payload.sid = none ∨ payload.sid = some "" then
        (.error ⟨401, "Invalid refresh token"⟩, st)
      else
        let user_id := payload.id
        let session_id := payload.sid.getD ""
        match find_refresh_session_row st session_id with
        | none => (.error ⟨401, "Invalid refresh token"⟩, st)
        | some session =>
          if session.user_id ≠ user_id then
            (.error ⟨401, "Invalid refresh token"⟩, st)
          else
            match session.revoked_at with
            | some rv =>
              if now - rv < 5 then
                match find_refresh_session_row st session_id with
                | some new_session =>
                  if new_session.revoked_at = none then
                    (.ok ⟨mk_access_token user_id now, none⟩, st)
                  else (.error ⟨401, "Refresh token revoked"⟩, st)
                | none => (.error ⟨401, "Refresh token revoked"⟩, st)
              else (.error ⟨401, "Refresh token revoked"⟩, st)
            | none =>
              if session.expires_at < now then
                (.error ⟨401, "Refresh token expired"⟩,
                 (delete_refresh_session_repo st session_id).1)
              else if !verify_token (serializeJwt rt) session.refresh_token_hash then
                (.error ⟨401, "Invalid refresh token"⟩, st)
              else
                let new_refresh := mk_refresh_token user_id newSid now
                let st2 := create_refresh_session_repo st newSid user_id
                  (hash_token (serializeJwt new_refresh)) (now + 604800) now
                (.ok ⟨mk_access_token user_id now, some new_refresh⟩,
                 revoke_refresh_session_repo st2 session_id newSid now)

/-- `POST /auth/logout`: the `Depends(require_user)` access-credential check
runs before the body; only then is the cookie decoded and the session row
deleted (a missing `sid` claim deletes nothing). -/
def logout_route (access : Option Jwt) (dir : Int → Option UserPublic)
    (cookie : Option Jwt) (st : Store) (now : Int) :
    Except HttpError String × Store :=
  match require_user access dir now with
  | .error e => (.error e, st)
  | .ok _ =>
    match cookie with
    | none => (.error ⟨401, "No refresh token provided"⟩, st)
    | some rt =>
      match decode_token rt now with
      | .error e => (.error e, st)
      | .ok payload =>
        match payload.sid with
        | none => (.ok "User logged out successfully", st)
        | some sid =>
          (.ok "User logged out successfully", (delete_refresh_session_repo st sid).1)

/-- `POST /auth/logout-all-devices` body: delete every session of the user. -/
def logout_all_route (uid : Int) (st : Store) : Nat × Store :=
  ((cleanup_all_user_sessions_repo st uid).2, (cleanup_all_user_sessions_repo st uid).1)

/-! ## The protocol as a state machine over the session table

For the revocation-chain invariant the operations are gathered into one step
relation. The ghost field `existed` records, in creation order, every
session identifier ever inserted, so that "referenced a session that existed
at the moment of revocation" and "forward-only" are expressible after rows
are deleted. -/

/-- One protocol operation, with the inputs its route receives. -/
inductive AuthOp where
  | login (user : UserPublic) (sid : String) (now : Int)
  | refresh (cookie : Option Jwt) (now : Int) (newSid : String)
  | logout (access : Option Jwt) (dir : Int → Option UserPublic)
      (cookie : Option Jwt) (now : Int)
  | logoutAll (uid : Int)
  | sweep (hours : Int) (now : Int)

/-- The session table together with the ghost creation log. -/
structure ProtoState where
  store : Store
  existed : List String
deriving DecidableEq, Repr

def exceptOk {ε α : Type} : Except ε α → Bool
  | .ok _ => true
  | .error _ => false

/-- Whether a refresh response rotated (created) a session: exactly the
responses that set a new cookie. -/
def rotatedOk : Except HttpError RefreshOk → Bool
  | .ok r => r.set_cookie.isSome
  | .error _ => false

/-- Execute one operation; the ghost log grows exactly when a row is
inserted. -/
def step (ps : ProtoState) (op : AuthOp) : ProtoState :=
  match op with
  | .login user sid now =>
    let r := login_route user sid ps.store now
    ⟨r.2, if exceptOk r.1 then ps.existed ++ [sid] else ps.existed⟩
  | .refresh cookie now newSid =>
    let r := refresh_token_route_rows cookie ps.store now newSid
    ⟨r.2, if rotatedOk r.1 then ps.existed ++ [newSid] else ps.existed⟩
  | .logout access dir cookie now =>
    ⟨(logout_route access dir cookie ps.store now).2, ps.existed⟩
  | .logoutAll uid => ⟨(logout_all_route uid ps.store).2, ps.existed⟩
  | .sweep hours now =>
    ⟨(cleanup_expired_and_revoked_sessions_repo ps.store hours now).1, ps.existed⟩

/-- Freshness of the identifier an operation mints, which the source draws
from `uuid4`: it never reuses an identifier that ever existed. -/
def freshOp (ps : ProtoState) : AuthOp → Bool
  | .login _ sid _ => !(decide (sid ∈ ps.existed))
  | .refresh _ _ newSid => !(decide (newSid ∈ ps.existed))
  | _ => true

/-- Position of the first occurrence of `a` in `l` (length of `l` when
absent): the creation rank of a session identifier in the ghost log. -/
def posIn : List String → String → Nat
  | [], _ => 0
  | x :: xs, a => if x = a then 0 else posIn xs a + 1

/-- Chain condition of one row: its identifier was created, and its
`replaced_by_sid`, when set, names an identifier created strictly later
(hence distinct from its own, and the chain is forward-only and acyclic). -/
def chainOkB (existed : List String) (s : RefreshSession) : Bool :=
  decide (s.session_id ∈ existed) &&
  (match s.replaced_by_sid with
   | none => true
   | some t => decide (t ∈ existed) &&
       decide (posIn existed s.session_id < posIn existed t))

/-- The revocation-chain invariant: every row satisfies the chain condition
and session identifiers are unique (one row per `session_id`). -/
def chainInv (ps : ProtoState) : Bool :=
  ps.store.all (chainOkB ps.existed) &&
  decide (ps.store.map (fun s => s.session_id)).Nodup

/-- A row persisting across one step changes its `revoked_at` only from
NULL: a session is revoked at most once. -/
def revokeStepOk (ps : ProtoState) (op : AuthOp) : Prop :=
  ∀ s ∈ ps.store, ∀ s2 ∈ (step ps op).store,
    s.session_id = s2.session_id → (s2.revoked_at = s.revoked_at ∨ s.revoked_at = none)

/-- When a refresh rotates, the post-state holds the successor row, still
unrevoked, and the predecessor row revoked at `now` pointing at it: the
successor was created (and queryable) no later than the predecessor was
marked revoked. -/
def createBeforeRevoke (ps : ProtoState) : AuthOp → Prop
  | .refresh cookie now newSid =>
    rotatedOk (refresh_token_route_rows cookie ps.store now newSid).1 = true →
      (∃ s ∈ (refresh_token_route_rows cookie ps.store now newSid).2,
         s.session_id = newSid ∧ s.revoked_at = none) ∧
      (∃ p ∈ (refresh_token_route_rows cookie ps.store now newSid).2,
         p.replaced_by_sid = some newSid ∧ p.revoked_at = some now)
  | _ => True

/-- Modelled from the spec, for comparison only: the closed role set
{User, Organizer, Admin, SysAdmin} with its meets-minimum-role ordering. -/
def specRoleRank (r : String) : Nat :=
  if r = ROLE_SYSADMIN then 3
  else if r = ROLE_ADMIN then 2
  else if r = ROLE_ORGANIZER then 1
  else 0

/-! ## Helper lemmas -/

instance {ε α : Type} [DecidableEq ε] [DecidableEq α] : DecidableEq (Except ε α) := fun
  | .error e1, .error e2 => decidable_of_iff (e1 = e2) (by simp)
  | .error _, .ok _ => .isFalse (by simp)
  | .ok _, .error _ => .isFalse (by simp)
  | .ok a1, .ok a2 => decidable_of_iff (a1 = a2) (by simp)

theorem decode_token_error {t : Jwt} {now : Int} {e : HttpError}
    (h : decode_token t now = Except.error e) :
    e = ⟨401, "Invalid or expired token"⟩ := by
  unfold decode_token at h
  rcases hd : jwtDecode t SECRET_KEY now with _ | p <;> rw [hd] at h
  · exact (Except.error.injEq _ _).mp h.symm
  · cases h

theorem find_row_eq_some {st : Store} {sid : String} {s : RefreshSession}
    (h : find_refresh_session_row st sid = some s) : s ∈ st ∧ s.session_id = sid := by
  refine ⟨List.mem_of_find?_eq_some h, ?_⟩
  have := List.find?_some h
  simpa using this

theorem countP_or_split {α : Type} (p q : α → Bool) (l : List α) :
    l.countP p + (l.filter (fun a => !p a)).countP q =
      l.countP (fun a => p a || q a) := by
  induction l with
  | nil => simp
  | cons x xs ih =>
    by_cases hp : p x <;> by_cases hq : q x <;>
      simp [List.countP_cons, List.filter_cons, hp, hq] <;> omega

theorem require_user_eq_gcu (cred : Option Jwt) (dir : Int → Option UserPublic)
    (now : Int) : require_user cred dir now = get_current_user cred dir now := by
  unfold require_user
  cases get_current_user cred dir now <;> rfl

theorem get_current_user_error_status {cred : Option Jwt}
    {dir : Int → Option UserPublic} {now : Int} {e : HttpError}
    (h : get_current_user cred dir now = Except.error e) :
    e.status_code = 401 ∨ e.status_code = 403 ∨ e.status_code = 500 := by
  rcases cred with _ | j
  · simp only [get_current_user] at h
    simp at h
    subst h
    simp
  · rcases hd : decode_token j now with e2 | p
    · simp only [get_current_user, hd] at h
      simp at h
      subst h
      rw [decode_token_error hd]
      simp
    · simp only [get_current_user, hd] at h
      repeat' split at h
      all_goals simp at h
      all_goals subst h
      all_goals simp

/-! ## The claims -/

/-- C9: token issuance rejects falsy principals. For a `user_id` of `None`
or `0`, both `create_access_token` and `create_refresh_token` raise
`ValueError` instead of returning a token, so no credential is ever minted
for user id 0. -/
theorem c9_falsy_user_rejected (now : Int) (sid : String) :
    create_access_token none now = Except.error valueErrorMsg ∧
    create_access_token (some 0) now = Except.error valueErrorMsg ∧
    create_refresh_token none sid now = Except.error valueErrorMsg ∧
    create_refresh_token (some 0) sid now = Except.error valueErrorMsg := by
  simp [create_access_token, create_refresh_token, truthyId]

/-- C7: access-token round trip. For every nonzero `user_id`, decoding the
access token issued at `now1` at any instant before its 15-minute expiry
succeeds and yields claims whose `id` equals `user_id`. -/
theorem c7_access_roundtrip (uid now1 now2 : Int) (h0 : uid ≠ 0)
    (hlt : now2 < now1 + 900) :
    create_access_token (some uid) now1 = Except.ok (mk_access_token uid now1) ∧
    decode_token (mk_access_token uid now1) now2 =
      Except.ok (mk_access_token uid now1).payload ∧
    (mk_access_token uid now1).payload.id = uid := by
  refine ⟨?_, ?_, rfl⟩
  · simp [create_access_token, truthyId, h0]
  · simp [decode_token, jwtDecode, mk_access_token, hlt]

/-- Witness for C7 at `user_id = 7`, issued at 0 and decoded at 10. -/
theorem c7_access_roundtrip_witness :
    create_access_token (some 7) 0 = Except.ok (mk_access_token 7 0) ∧
    decode_token (mk_access_token 7 0) 10 = Except.ok (mk_access_token 7 0).payload ∧
    (mk_access_token 7 0).payload.id = 7 :=
  c7_access_roundtrip 7 0 10 (by decide) (by decide)

/-- C2: sweep correctness. `sweep(24)` leaves exactly the rows that are
neither expired more than 24 hours ago nor revoked more than 24 hours ago,
returns the count of the deleted rows, and in particular keeps every ACTIVE
row (NULL `revoked_at`, unexpired) whatever its age. -/
theorem c2_sweep_correct (st : Store) (now : Int) :
    (cleanup_expired_and_revoked_sessions_repo st 24 now).1 =
      st.filter (fun s => !(expiredOld (now - 86400) s || revokedOld (now - 86400) s)) ∧
    (cleanup_expired_and_revoked_sessions_repo st 24 now).2 =
      st.countP (fun s => expiredOld (now - 86400) s || revokedOld (now - 86400) s) ∧
    ∀ s ∈ st, s.revoked_at = none → now < s.expires_at →
      s ∈ (cleanup_expired_and_revoked_sessions_repo st 24 now).1 := by
  have hcut : now - 24 * 3600 = now - 86400 := by norm_num
  have h1 : (cleanup_expired_and_revoked_sessions_repo st 24 now).1 =
      st.filter (fun s => !(expiredOld (now - 86400) s || revokedOld (now - 86400) s)) := by
    simp only [cleanup_expired_and_revoked_sessions_repo, hcut, List.filter_filter]
    apply List.filter_congr
    intro s _
    cases hp : expiredOld (now - 86400) s <;> cases hq : revokedOld (now - 86400) s <;> simp [hp, hq]
  refine ⟨h1, ?_, ?_⟩
  · simp only [cleanup_expired_and_revoked_sessions_repo, hcut]
    exact countP_or_split _ _ st
  · intro s hs hrev hexp
    rw [h1, List.mem_filter]
    refine ⟨hs, ?_⟩
    have he : expiredOld (now - 86400) s = false := by
      simp only [expiredOld, decide_eq_false_iff_not]
      omega
    have hr : revokedOld (now - 86400) s = false := by
      simp [revokedOld, hrev]
    simp [he, hr]

/-- The store of the C1 failing input: session A of user 7 was rotated one
second ago (`revoked_at = 999`, `replaced_by_sid = B`) and its successor B
is still ACTIVE; the clock reads 1000. -/
def c1Store : Store :=
  [⟨"A", 7, "hA", some 999, some "B", 700000, 0⟩,
   ⟨"B", 7, "hB", none, none, 700000, 999⟩]

/-- C1: evaluation of the code at the failing input of the grace-window
claim. One second after rotation (well inside the 5-second window) and with
the `replaced_by_sid` successor B still ACTIVE in the table, a refresh
presenting the token of the rotated session A does not succeed: it dies
with the unhandled `AttributeError` (500) the moment `session.revoked_at`
is read off the projected DTO, before any grace-window logic (which would
in any case re-fetch the SAME `session_id`, not the successor) can run. -/
theorem c1_grace_replay_500 :
    refresh_token_route (some (mk_refresh_token 7 "A" 500)) c1Store 1000 "C" =
      (Except.error ⟨500, "AttributeError"⟩, c1Store) ∧
    (1000 : Int) - 999 < 5 ∧
    find_refresh_session_row c1Store "B" =
      some ⟨"B", 7, "hB", none, none, 700000, 999⟩ ∧
    (find_refresh_session_row c1Store "A").map (fun s => s.replaced_by_sid) =
      some (some "B") := by
  decide

/-- The session row of the C3 failing input: expired (`expires_at = 10`) and
never revoked. -/
def c3WSess : RefreshSession := ⟨"W3", 7, "h", none, none, 10, 0⟩

/-- C3: evaluation of the code at the failing input of the expiry claim. A
refresh presenting the valid, matching token of an expired unrevoked
session does not fail with `SessionExpired`: it dies with the unhandled
`AttributeError` (500) at the `session.revoked_at` read, which precedes the
expiry check; the deletion side effect is unreachable, the store is left
unchanged, and a subsequent get still returns the row. -/
theorem c3_expired_refresh_500 :
    refresh_token_route (some (mk_refresh_token 7 "W3" 0)) [c3WSess] 100 "B" =
      (Except.error ⟨500, "AttributeError"⟩, [c3WSess]) ∧
    c3WSess.expires_at < 100 ∧
    c3WSess.revoked_at = none ∧
    get_refresh_session_repo [c3WSess] "W3" =
      some (RefreshSessionOut.ofRow c3WSess) := by
  decide

/-- The directory of the C4 counterexample: user 1 is an active admin. -/
def c4Dir : Int → Option UserPublic :=
  fun i => if i = 1 then some ⟨1, "admin", true⟩ else none

/-- C4 counterexample: an active caller whose role admin strictly exceeds the
required minimum organizer is rejected by `require_organizer` with 403, since
the guard tests string equality rather than a meets-minimum ordering; and a
request presenting no credential at all fails with the unhandled 500, not
401. -/
theorem c4_admin_rejected_counterexample :
    require_organizer (some (mk_access_token 1 0)) c4Dir 100 =
      Except.error ⟨403, "You must be an organizer to access this route."⟩ ∧
    specRoleRank "admin" ≥ specRoleRank ROLE_ORGANIZER ∧
    (c4Dir 1).map (fun u => u.is_active) = some true ∧
    require_organizer none c4Dir 100 = Except.error ⟨500, "AttributeError"⟩ := by
  decide

/-- C4 as amended: every role guard tests string equality with its single
required role. With a resolved caller, `require_user` always grants while
the organizer, admin and superadmin guards grant exactly on role equality
and fail 403 otherwise (higher roles included); every `get_current_user`
failure propagates unchanged — in particular a presented credential that
fails decoding yields 401, and a missing credential yields the unhandled
500. -/
theorem c4_role_guard_exact_match (cred : Option Jwt)
    (dir : Int → Option UserPublic) (now : Int) :
    (∀ u, get_current_user cred dir now = Except.ok u →
      (require_user cred dir now = Except.ok u ∧
       require_organizer cred dir now =
         (if u.role = ROLE_ORGANIZER then Except.ok u
          else Except.error ⟨403, "You must be an organizer to access this route."⟩) ∧
       require_admin cred dir now =
         (if u.role = ROLE_ADMIN then Except.ok u
          else Except.error ⟨403, "You must be an admin to access this route."⟩) ∧
       require_superadmin cred dir now =
         (if u.role = ROLE_SYSADMIN then Except.ok u
          else Except.error ⟨403, "You must be a superadmin to access this route."⟩))) ∧
    (∀ e, get_current_user cred dir now = Except.error e →
       require_user cred dir now = Except.error e ∧
       require_organizer cred dir now = Except.error e ∧
       require_admin cred dir now = Except.error e ∧
       require_superadmin cred dir now = Except.error e) ∧
    (cred = none →
       get_current_user cred dir now = Except.error ⟨500, "AttributeError"⟩) ∧
    (∀ j e, cred = some j → decode_token j now = Except.error e →
       get_current_user cred dir now = Except.error e ∧ e.status_code = 401) := by
  refine ⟨?_, ?_, ?_, ?_⟩
  · intro u hu
    refine ⟨?_, ?_, ?_, ?_⟩
    · simp [require_user, hu]
    · by_cases h : u.role = ROLE_ORGANIZER <;> simp [require_organizer, hu, h, bne_iff_ne]
    · by_cases h : u.role = ROLE_ADMIN <;> simp [require_admin, hu, h, bne_iff_ne]
    · by_cases h : u.role = ROLE_SYSADMIN <;> simp [require_superadmin, hu, h, bne_iff_ne]
  · intro e he
    refine ⟨?_, ?_, ?_, ?_⟩ <;>
      simp [require_user, require_organizer, require_admin, require_superadmin, he]
  · intro h
    subst h
    rfl
  · intro j e hj hde
    subst hj
    exact ⟨by simp [get_current_user, hde], by rw [decode_token_error hde]⟩

/-- C5 counterexample: two reachable refresh failures of the 401 class carry
different detail messages — "No refresh token provided" for a missing
cookie versus "Invalid refresh token" for a wrong-kind token — so the
caller CAN distinguish why the token failed, and neither branch returns the
generic "invalid or expired credential". -/
theorem c5_distinct_messages_counterexample :
    refresh_token_route none [] 1000 "X" =
      (Except.error ⟨401, "No refresh token provided"⟩, []) ∧
    refresh_token_route (some (mk_access_token 9 999)) [] 1000 "X" =
      (Except.error ⟨401, "Invalid refresh token"⟩, []) ∧
    ("No refresh token provided" : String) ≠ "Invalid refresh token" ∧
    ("No refresh token provided" : String) ≠ "invalid or expired credential" ∧
    ("Invalid refresh token" : String) ≠ "invalid or expired credential" := by
  decide

/-- C5 as amended: every refresh call fails and leaves the table unchanged.
Failures that occur before a matching session row is loaded are 401s with
one of three distinct details naming the failure class, not one identical
generic message; every call that does load the matching session fails with
the unhandled `AttributeError` (500) instead of any 401. -/
theorem c5_refresh_failure_classes (cookie : Option Jwt) (st : Store)
    (now : Int) (nsid : String) :
    ∃ e, refresh_token_route cookie st now nsid = (Except.error e, st) ∧
      ((e.status_code = 401 ∧
        (e.detail = "No refresh token provided" ∨
         e.detail = "Invalid or expired token" ∨
         e.detail = "Invalid refresh token")) ∨
       e = ⟨500, "AttributeError"⟩) := by
  rcases cookie with _ | rt
  · exact ⟨⟨401, "No refresh token provided"⟩, rfl, Or.inl ⟨rfl, Or.inl rfl⟩⟩
  rcases hd : decode_token rt now with e2 | p
  · refine ⟨e2, by simp [refresh_token_route, hd], ?_⟩
    rw [decode_token_error hd]
    exact Or.inl ⟨rfl, Or.inr (Or.inl rfl)⟩
  by_cases h1 : p.typ ≠ some "refresh"
  · exact ⟨⟨401, "Invalid refresh token"⟩,
      by simp [refresh_token_route, hd, h1], Or.inl ⟨rfl, Or.inr (Or.inr rfl)⟩⟩
  by_cases h2 : p.id = 0 ∨ p.sid = none ∨ p.sid = some ""
  · exact ⟨⟨401, "Invalid refresh token"⟩,
      by simp [refresh_token_route, hd, h1, h2], Or.inl ⟨rfl, Or.inr (Or.inr rfl)⟩⟩
  rcases hget : get_refresh_session_repo st (p.sid.getD "") with _ | sess
  · exact ⟨⟨401, "Invalid refresh token"⟩,
      by simp [refresh_token_route, hd, h1, h2, hget], Or.inl ⟨rfl, Or.inr (Or.inr rfl)⟩⟩
  by_cases h3 : sess.user_id ≠ p.id
  · exact ⟨⟨401, "Invalid refresh token"⟩,
      by simp [refresh_token_route, hd, h1, h2, hget, h3],
      Or.inl ⟨rfl, Or.inr (Or.inr rfl)⟩⟩
  · exact ⟨⟨500, "AttributeError"⟩,
      by simp [refresh_token_route, hd, h1, h2, hget, h3], Or.inr rfl⟩

/-- The store and directory of the C10 theorems. -/
def c10Store : Store := [⟨"L", 5, "h", none, none, 700000, 0⟩]

def c10Dir : Int → Option UserPublic := fun _ => some ⟨5, "user", true⟩

/-- C10 counterexample: a logout request with no access credential at all
fails with the unhandled 500 `AttributeError`, not with 401 — though the
store, and the session row named by the cookie, are indeed left unchanged. -/
theorem c10_missing_credential_counterexample :
    logout_route none c10Dir (some (mk_refresh_token 5 "L" 0)) c10Store 100 =
      (Except.error ⟨500, "AttributeError"⟩, c10Store) ∧
    (500 : Nat) ≠ 401 ∧
    (get_refresh_session_repo c10Store "L").isSome = true := by
  decide

/-- C10 as amended: whenever the `Depends(require_user)` access check fails,
logout aborts with that same error before any state change — the store, and
with it the session row named by the refresh cookie, is untouched; the
rejection is the unhandled 500 when no credential was presented, and
otherwise 401 or 403. -/
theorem c10_logout_gate (access : Option Jwt) (dir : Int → Option UserPublic)
    (cookie : Option Jwt) (st : Store) (now : Int) (e : HttpError)
    (h : require_user access dir now = Except.error e) :
    logout_route access dir cookie st now = (Except.error e, st) ∧
    (access = none → e = ⟨500, "AttributeError"⟩) ∧
    (e.status_code = 401 ∨ e.status_code = 403 ∨ e.status_code = 500) := by
  refine ⟨by simp [logout_route, h], ?_, ?_⟩
  · intro hnone
    subst hnone
    rw [require_user_eq_gcu] at h
    simp only [get_current_user] at h
    simpa using h.symm
  · rw [require_user_eq_gcu] at h
    exact get_current_user_error_status h

/-! ## Digest shape lemmas for C8 -/

theorem sha256Compress_length (H block : List Nat) :
    (sha256Compress H block).length = 8 := rfl

theorem foldl_compress_length (L : List Nat) (g : Nat → List Nat)
    (H : List Nat) (hH : H.length = 8) :
    (L.foldl (fun acc i => sha256Compress acc (g i)) H).length = 8 := by
  induction L generalizing H with
  | nil => exact hH
  | cons x xs ih => exact ih _ (sha256Compress_length _ _)

theorem flatten_map_u32be_length (l : List Nat) :
    ((l.map u32be).flatten).length = 4 * l.length := by
  induction l with
  | nil => simp
  | cons x xs ih =>
    simp only [List.map_cons, List.flatten_cons, List.length_append, ih,
      List.length_cons, u32be, List.length_nil]
    omega

/-- A SHA-256 digest has exactly 32 bytes. -/
theorem sha256Bytes_length (msg : List Nat) : (sha256Bytes msg).length = 32 := by
  have h8 : ((List.range ((sha256Pad msg).length / 64)).foldl
      (fun H i => sha256Compress H (((sha256Pad msg).drop (64 * i)).take 64))
      sha256H0).length = 8 :=
    foldl_compress_length _ (fun i => ((sha256Pad msg).drop (64 * i)).take 64)
      sha256H0 rfl
  unfold sha256Bytes
  rw [flatten_map_u32be_length, h8]

/-- Every byte of a SHA-256 digest is below 256. -/
theorem sha256Bytes_lt (msg : List Nat) : ∀ b ∈ sha256Bytes msg, b < 256 := by
  intro b hb
  unfold sha256Bytes at hb
  rw [List.mem_flatten] at hb
  obtain ⟨l, hl, hbl⟩ := hb
  rw [List.mem_map] at hl
  obtain ⟨w, _, rfl⟩ := hl
  simp only [u32be, List.mem_cons, List.not_mem_nil, or_false] at hbl
  rcases hbl with rfl | rfl | rfl | rfl <;> exact Nat.mod_lt _ (by norm_num)

theorem hmacSha256_length (key msg : List Nat) :
    (hmacSha256 key msg).length = 32 := by
  unfold hmacSha256
  exact sha256Bytes_length _

theorem hmacSha256_lt (key msg : List Nat) :
    ∀ b ∈ hmacSha256 key msg, b < 256 := by
  unfold hmacSha256
  exact sha256Bytes_lt _

/-- The set of possible HMAC-SHA256 digests: byte lists of length 32. -/
def D32 : Set (List Nat) := {l | l.length = 32 ∧ ∀ b ∈ l, b < 256}

theorem getD_mem_of_lt {l : List Nat} {i : Nat} (h : i < l.length) :
    l.getD i 0 ∈ l := by
  rw [List.getD_eq_getElem l 0 h]
  exact List.getElem_mem h

/-- There are only finitely many 32-byte digests. -/
theorem D32_finite : D32.Finite := by
  rw [← Set.finite_coe_iff]
  have hinj : Function.Injective
      (fun x : D32 => (fun i : Fin 32 =>
        (⟨x.1.getD i 0, by
          have hmem : x.1.getD i 0 ∈ x.1 :=
            getD_mem_of_lt (by rw [x.2.1]; exact i.isLt)
          exact x.2.2 _ hmem⟩ : Fin 256))) := by
    intro x y hxy
    apply Subtype.ext
    apply List.ext_get (by rw [x.2.1, y.2.1])
    intro n h1 h2
    have hn : n < 32 := by rw [← x.2.1]; exact h1
    have hv := congrArg Fin.val (congrFun hxy ⟨n, hn⟩)
    simp only [List.get_eq_getElem] at *
    rwa [List.getD_eq_getElem _ _ h1, List.getD_eq_getElem _ _ h2] at hv
  exact Finite.of_injective _ hinj

/-- C8 counterexample: the universally quantified discrimination half of the
claim is false. `fingerprint` maps the infinitely many possible raw secrets
into the finitely many 32-byte HMAC-SHA256 digests, so two distinct secrets
with the same fingerprint exist, and for such a pair `matches(b,
fingerprint(a))` is true. -/
theorem c8_universal_discrimination_false :
    (∀ a b : String, a ≠ b → verify_token b (hash_token a) = false) = False := by
  apply eq_false
  intro hcl
  have hinj : Function.Injective hash_token := by
    intro a b hab
    by_contra hne
    have hf := hcl a b hne
    rw [verify_token, hab] at hf
    simp at hf
  have hsub : Set.range hash_token ⊆ base64urlEncode '' D32 := by
    rintro s ⟨a, rfl⟩
    exact ⟨hmacSha256 (strBytes SECRET_KEY) (strBytes a),
      ⟨hmacSha256_length _ _, hmacSha256_lt _ _⟩, rfl⟩
  have hfin : (Set.range hash_token).Finite :=
    (D32_finite.image _).subset hsub
  have huniv : (Set.univ : Set String).Finite := by
    apply Set.Finite.of_finite_image (f := hash_token)
    · rw [Set.image_univ]
      exact hfin
    · exact hinj.injOn
  rw [Set.finite_univ_iff] at huniv
  exact not_finite String

/-- C8 as amended: `matches(a, fingerprint(a))` always holds, and
`matches(b, fingerprint(a))` holds exactly when the two fingerprints
coincide — so it is false for every `b` whose fingerprint differs from
that of `a`, but not universally for every `b ≠ a`. -/
theorem c8_fingerprint_sound_and_exact (a b : String) :
    verify_token a (hash_token a) = true ∧
    verify_token b (hash_token a) = (hash_token b == hash_token a) := by
  exact ⟨by simp [verify_token], rfl⟩

/-! ## Chain-invariant lemmas for C6 -/

theorem posIn_append_of_mem {l : List String} {a : String} (h : a ∈ l)
    (l2 : List String) : posIn (l ++ l2) a = posIn l a := by
  induction l with
  | nil => cases h
  | cons x xs ih =>
    by_cases hx : x = a
    · simp [posIn, hx]
    · have hxs : a ∈ xs := by
        rcases List.mem_cons.mp h with h1 | h1
        · exact absurd h1.symm hx
        · exact h1
      simp [posIn, hx, ih hxs]

theorem posIn_lt_length {l : List String} {a : String} (h : a ∈ l) :
    posIn l a < l.length := by
  induction l with
  | nil => cases h
  | cons x xs ih =>
    by_cases hx : x = a
    · simp [posIn, hx]
    · have hxs : a ∈ xs := by
        rcases List.mem_cons.mp h with h1 | h1
        · exact absurd h1.symm hx
        · exact h1
      have := ih hxs
      simp only [posIn, hx, if_false, List.length_cons]
      omega

theorem posIn_append_self {l : List String} {a : String} (h : a ∉ l) :
    posIn (l ++ [a]) a = l.length := by
  induction l with
  | nil => simp [posIn]
  | cons x xs ih =>
    have hx : x ≠ a := fun hh => h (by simp [hh])
    have hxs : a ∉ xs := fun hh => h (List.mem_cons_of_mem _ hh)
    simp [posIn, hx, ih hxs]

theorem chainOkB_append {ex : List String} {s : RefreshSession}
    (h : chainOkB ex s = true) (l2 : List String) :
    chainOkB (ex ++ l2) s = true := by
  unfold chainOkB at h ⊢
  rcases hrep : s.replaced_by_sid with _ | t
  · simp only [hrep, Bool.and_true, decide_eq_true_eq] at h ⊢
    exact List.mem_append_left _ h
  · simp only [hrep, Bool.and_eq_true, decide_eq_true_eq] at h ⊢
    obtain ⟨h1, h2, h3⟩ := h
    refine ⟨List.mem_append_left _ h1, List.mem_append_left _ h2, ?_⟩
    rw [posIn_append_of_mem h1, posIn_append_of_mem h2]
    exact h3

theorem inv_all {ps : ProtoState} (h : chainInv ps = true) :
    ∀ s ∈ ps.store, chainOkB ps.existed s = true := by
  unfold chainInv at h
  simp only [Bool.and_eq_true, List.all_eq_true] at h
  exact h.1

theorem inv_nodup {ps : ProtoState} (h : chainInv ps = true) :
    (ps.store.map (fun s => s.session_id)).Nodup := by
  unfold chainInv at h
  simp only [Bool.and_eq_true, decide_eq_true_eq] at h
  exact h.2

theorem ids_sub_existed {ps : ProtoState} (h : chainInv ps = true) :
    ∀ s ∈ ps.store, s.session_id ∈ ps.existed := by
  intro s hs
  have hx := inv_all h s hs
  unfold chainOkB at hx
  simp only [Bool.and_eq_true, decide_eq_true_eq] at hx
  exact hx.1

theorem chainInv_mk {store : Store} {ex : List String}
    (h1 : ∀ s ∈ store, chainOkB ex s = true)
    (h2 : (store.map (fun s => s.session_id)).Nodup) :
    chainInv ⟨store, ex⟩ = true := by
  unfold chainInv
  simp only [Bool.and_eq_true, List.all_eq_true, decide_eq_true_eq]
  exact ⟨h1, h2⟩

theorem chainInv_filter {store : Store} {ex : List String}
    (p : RefreshSession → Bool) (h : chainInv ⟨store, ex⟩ = true) :
    chainInv ⟨store.filter p, ex⟩ = true := by
  apply chainInv_mk
  · intro s hs
    exact inv_all h s (List.mem_filter.mp hs).1
  · exact List.Nodup.sublist (List.Sublist.map _ (List.filter_sublist store))
      (inv_nodup h)

theorem mem_ids_sub {store : Store} {ex : List String}
    (hinv : chainInv ⟨store, ex⟩ = true) {x : String}
    (hx : x ∈ store.map (fun s => s.session_id)) : x ∈ ex := by
  rw [List.mem_map] at hx
  obtain ⟨s, hs, rfl⟩ := hx
  exact ids_sub_existed hinv s hs

theorem chainInv_snoc {store : Store} {ex : List String} {sid : String}
    (uid : Int) (hashv : String) (e c : Int)
    (hinv : chainInv ⟨store, ex⟩ = true) (hfresh : sid ∉ ex) :
    chainInv ⟨store ++ [⟨sid, uid, hashv, none, none, e, c⟩], ex ++ [sid]⟩ = true := by
  apply chainInv_mk
  · intro s hs
    rcases List.mem_append.mp hs with hs1 | hs1
    · exact chainOkB_append (inv_all hinv s hs1) _
    · simp only [List.mem_singleton] at hs1
      subst hs1
      unfold chainOkB
      simp
  · rw [List.map_append, List.nodup_append]
    refine ⟨inv_nodup hinv, by simp, ?_⟩
    intro x hx hxs
    simp only [List.map_cons, List.map_nil, List.mem_singleton] at hxs
    subst hxs
    exact hfresh (mem_ids_sub hinv hx)

theorem revoke_map_ids (st : Store) (sid newSid : String) (now : Int) :
    (revoke_refresh_session_repo st sid newSid now).map (fun s => s.session_id) =
      st.map (fun s => s.session_id) := by
  unfold revoke_refresh_session_repo
  rw [List.map_map]
  apply List.map_congr_left
  intro s _
  by_cases h : s.session_id = sid <;> simp [h]

theorem chainInv_rotate {store : Store} {ex : List String} {sidOld newSid : String}
    (uid : Int) (hashv : String) (e c now : Int)
    (hinv : chainInv ⟨store, ex⟩ = true) (hfresh : newSid ∉ ex)
    (hold : sidOld ∈ ex) :
    chainInv ⟨revoke_refresh_session_repo
        (store ++ [⟨newSid, uid, hashv, none, none, e, c⟩]) sidOld newSid now,
      ex ++ [newSid]⟩ = true := by
  have hne : newSid ≠ sidOld := fun hh => hfresh (hh ▸ hold)
  apply chainInv_mk
  · intro s hs
    unfold revoke_refresh_session_repo at hs
    rw [List.mem_map] at hs
    obtain ⟨u, hu, rfl⟩ := hs
    rcases List.mem_append.mp hu with hu1 | hu1
    · by_cases hsid : u.session_id == sidOld
      · have humem : u.session_id ∈ ex := ids_sub_existed hinv u hu1
        simp only [hsid, if_true]
        unfold chainOkB
        simp only [Bool.and_eq_true, decide_eq_true_eq]
        refine ⟨List.mem_append_left _ humem, ⟨List.mem_append_right _ (by simp), ?_⟩⟩
        rw [posIn_append_of_mem humem, posIn_append_self hfresh]
        exact posIn_lt_length humem
      · simp only [hsid]
        simp only [Bool.false_eq_true, if_false]
        exact chainOkB_append (inv_all hinv u hu1) _
    · simp only [List.mem_singleton] at hu1
      subst hu1
      have : ((⟨newSid, uid, hashv, none, none, e, c⟩ : RefreshSession).session_id
          == sidOld) = false := by
        simp [hne]
      simp only [this, Bool.false_eq_true, if_false]
      unfold chainOkB
      simp
  · rw [revoke_map_ids, List.map_append, List.nodup_append]
    refine ⟨inv_nodup hinv, by simp, ?_⟩
    intro x hx hxs
    simp only [List.map_cons, List.map_nil, List.mem_singleton] at hxs
    subst hxs
    exact hfresh (mem_ids_sub hinv hx)

/-- The shape of `login_route`: either it fails and leaves the table alone,
or it succeeds and appends exactly one fresh row. -/
theorem login_route_shape (user : UserPublic) (sid : String) (st : Store)
    (now : Int) :
    ((login_route user sid st now).2 = st ∧
       exceptOk (login_route user sid st now).1 = false) ∨
    ((login_route user sid st now).2 =
        create_refresh_session_repo st sid user.id
          (hash_token (serializeJwt (mk_refresh_token user.id sid now)))
          (now + 604800) now ∧
       exceptOk (login_route user sid st now).1 = true) := by
  by_cases hA : user.is_active
  · rcases hT : create_access_token (some user.id) now with m | tok
    · left
      simp [login_route, hA, hT, exceptOk]
    · have htr : truthyId (some user.id) = true := by
        by_contra hc
        simp only [Bool.not_eq_true] at hc
        simp [create_access_token, hc] at hT
      right
      simp [login_route, hA, hT, create_refresh_token, htr, exceptOk]
  · left
    simp [login_route, hA, exceptOk]

/-- The shape of `refresh_token_route_rows`: it leaves the table alone,
deletes one row (expiry), or rotates — appending the successor row and then
marking the matched, previously unrevoked session revoked with that
successor. -/
theorem refresh_route_shape (cookie : Option Jwt) (st : Store) (now : Int)
    (newSid : String) :
    ((refresh_token_route_rows cookie st now newSid).2 = st ∧
       rotatedOk (refresh_token_route_rows cookie st now newSid).1 = false) ∨
    (∃ sid, (refresh_token_route_rows cookie st now newSid).2 =
        st.filter (fun s => s.session_id != sid) ∧
      rotatedOk (refresh_token_route_rows cookie st now newSid).1 = false) ∨
    (∃ sess, sess ∈ st ∧ sess.revoked_at = none ∧
      rotatedOk (refresh_token_route_rows cookie st now newSid).1 = true ∧
      (refresh_token_route_rows cookie st now newSid).2 =
        revoke_refresh_session_repo
          (create_refresh_session_repo st newSid sess.user_id
            (hash_token (serializeJwt (mk_refresh_token sess.user_id newSid now)))
            (now + 604800) now)
          sess.session_id newSid now) := by
  rcases cookie with _ | rt
  · left
    exact ⟨rfl, rfl⟩
  rcases hd : decode_token rt now with m | p
  · left
    simp [refresh_token_route_rows, hd, rotatedOk]
  by_cases h1 : p.typ ≠ some "refresh"
  · left
    simp [refresh_token_route_rows, hd, h1, rotatedOk]
  by_cases h2 : p.id = 0 ∨ p.sid = none ∨ p.sid = some ""
  · left
    simp [refresh_token_route_rows, hd, h1, h2, rotatedOk]
  rcases hget : find_refresh_session_row st (p.sid.getD "") with _ | sess
  · left
    simp [refresh_token_route_rows, hd, h1, h2, hget, rotatedOk]
  by_cases h3 : sess.user_id ≠ p.id
  · left
    simp [refresh_token_route_rows, hd, h1, h2, hget, h3, rotatedOk]
  rcases hrev : sess.revoked_at with _ | rv
  · by_cases h4 : sess.expires_at < now
    · right; left
      refine ⟨p.sid.getD "", ?_, ?_⟩ <;>
        simp [refresh_token_route_rows, hd, h1, h2, hget, h3, hrev, h4,
          delete_refresh_session_repo, rotatedOk]
    · by_cases h5 : verify_token (serializeJwt rt) sess.refresh_token_hash
      · right; right
        have hueq : sess.user_id = p.id := not_ne_iff.mp h3
        have hsid : sess.session_id = p.sid.getD "" := (find_row_eq_some hget).2
        refine ⟨sess, (find_row_eq_some hget).1, hrev, ?_, ?_⟩ <;>
          simp [refresh_token_route_rows, hd, h1, h2, hget, h3, hrev, h4, h5,
            rotatedOk, hueq, hsid]
      · left
        simp [refresh_token_route_rows, hd, h1, h2, hget, h3, hrev, h4, h5,
          rotatedOk]
  · by_cases h6 : now - rv < 5
    · left
      simp [refresh_token_route_rows, hd, h1, h2, hget, h3, hrev, h6, rotatedOk]
    · left
      simp [refresh_token_route_rows, hd, h1, h2, hget, h3, hrev, h6, rotatedOk]

/-- The shape of `logout_route`: it leaves the table alone or deletes one
row. -/
theorem logout_route_shape (access : Option Jwt) (dir : Int → Option UserPublic)
    (cookie : Option Jwt) (st : Store) (now : Int) :
    (logout_route access dir cookie st now).2 = st ∨
    ∃ sid, (logout_route access dir cookie st now).2 =
      st.filter (fun s => s.session_id != sid) := by
  rcases hr : require_user access dir now with e | u
  · left
    simp [logout_route, hr]
  rcases cookie with _ | rt
  · left
    simp [logout_route, hr]
  rcases hd : decode_token rt now with e | p
  · left
    simp [logout_route, hr, hd]
  rcases hsid : p.sid with _ | sid
  · left
    simp [logout_route, hr, hd, hsid]
  · right
    exact ⟨sid, by simp [logout_route, hr, hd, hsid, delete_refresh_session_repo]⟩

theorem revokeStepOk_of_subset {ps : ProtoState} {op : AuthOp}
    (hinv : chainInv ps = true)
    (hsub : ∀ s2 ∈ (step ps op).store, s2 ∈ ps.store) : revokeStepOk ps op := by
  intro s hs s2 hs2 hid
  have heq := List.inj_on_of_nodup_map (inv_nodup hinv) hs (hsub s2 hs2) hid
  left
  rw [heq]

/-- C6: every operation — login, refresh, logout, logout-all, sweep —
preserves the revocation-chain invariant: each row's `replaced_by_sid`, when
set, names a session identifier that had been created (and created strictly
later than the row's own, so the chain is forward-only and acyclic, and a
session is never its own successor), and session identifiers stay unique;
moreover a row changes its `revoked_at` only from NULL (revoked at most
once), and when a refresh rotates, the post-state contains the still
unrevoked successor row next to the predecessor, revoked at `now` and
pointing at it — creation of the successor precedes revocation of the
predecessor. -/
theorem c6_chain_invariant_preserved (ps : ProtoState) (op : AuthOp)
    (hf : freshOp ps op = true) (hinv : chainInv ps = true) :
    chainInv (step ps op) = true ∧ revokeStepOk ps op ∧
      createBeforeRevoke ps op := by
  rcases op with ⟨user, sid, now⟩ | ⟨cookie, now, newSid⟩ |
    ⟨access, dir, cookie, now⟩ | uid | ⟨hours, now⟩
  · -- login
    simp only [freshOp, Bool.not_eq_eq_eq_not, Bool.not_true, decide_eq_false_iff_not] at hf
    rcases login_route_shape user sid ps.store now with ⟨h2, h1⟩ | ⟨h2, h1⟩
    · refine ⟨?_, ?_, trivial⟩
      · simp only [step, h1, h2, Bool.false_eq_true, if_false]
        exact hinv
      · exact revokeStepOk_of_subset hinv (by simp only [step, h2]; exact fun s2 h => h)
    · refine ⟨?_, ?_, trivial⟩
      · simp only [step, h1, h2, if_true]
        exact chainInv_snoc user.id _ _ _ hinv hf
      · intro s hs s2 hs2 hid
        simp only [step, h2, create_refresh_session_repo] at hs2
        rcases List.mem_append.mp hs2 with hs2 | hs2
        · left
          rw [List.inj_on_of_nodup_map (inv_nodup hinv) hs hs2 hid]
        · simp only [List.mem_singleton] at hs2
          subst hs2
          have hsid2 : s.session_id = sid := hid
          exact absurd (hsid2 ▸ ids_sub_existed hinv s hs) hf
  · -- refresh
    simp only [freshOp, Bool.not_eq_eq_eq_not, Bool.not_true, decide_eq_false_iff_not] at hf
    rcases refresh_route_shape cookie ps.store now newSid with
      ⟨h2, h1⟩ | ⟨sid, h2, h1⟩ | ⟨sess, hmem, hrev, h1, h2⟩
    · refine ⟨?_, ?_, ?_⟩
      · simp only [step, h1, h2, Bool.false_eq_true, if_false]
        exact hinv
      · exact revokeStepOk_of_subset hinv (by simp only [step, h2]; exact fun s2 h => h)
      · intro hro
        rw [h1] at hro
        cases hro
    · refine ⟨?_, ?_, ?_⟩
      · simp only [step, h1, h2, Bool.false_eq_true, if_false]
        exact chainInv_filter _ hinv
      · exact revokeStepOk_of_subset hinv
          (by simp only [step, h2]; exact fun s2 h => (List.mem_filter.mp h).1)
      · intro hro
        rw [h1] at hro
        cases hro
    · have hold : sess.session_id ∈ ps.existed := ids_sub_existed hinv sess hmem
      have hne : newSid ≠ sess.session_id := fun hh => hf (hh ▸ hold)
      refine ⟨?_, ?_, ?_⟩
      · simp only [step, h1, h2, if_true]
        exact chainInv_rotate sess.user_id _ _ _ now hinv hf hold
      · intro s hs s2 hs2 hid
        simp only [step, h2, create_refresh_session_repo,
          revoke_refresh_session_repo] at hs2
        rw [List.mem_map] at hs2
        obtain ⟨u, hu, hfu⟩ := hs2
        have hus2 : u.session_id = s2.session_id := by
          by_cases hc : u.session_id == sess.session_id <;> rw [← hfu] <;> simp [hc]
        rcases List.mem_append.mp hu with hu1 | hu1
        · have hus : u = s :=
            List.inj_on_of_nodup_map (inv_nodup hinv) hu1 hs (hus2.trans hid.symm)
          subst hus
          by_cases hc : u.session_id == sess.session_id
          · have : u = sess :=
              List.inj_on_of_nodup_map (inv_nodup hinv) hu1 hmem (by simpa using hc)
            right
            rw [this, hrev]
          · left
            rw [← hfu]
            simp [hc]
        · simp only [List.mem_singleton] at hu1
          subst hu1
          have : s.session_id = newSid := hid.trans hus2.symm
          exact absurd (this ▸ ids_sub_existed hinv s hs) hf
      · intro _
        constructor
        · refine ⟨(⟨newSid, sess.user_id,
            hash_token (serializeJwt (mk_refresh_token sess.user_id newSid now)),
            none, none, now + 604800, now⟩ : RefreshSession), ?_, rfl, rfl⟩
          rw [h2]
          unfold revoke_refresh_session_repo create_refresh_session_repo
          rw [List.mem_map]
          refine ⟨(⟨newSid, sess.user_id,
            hash_token (serializeJwt (mk_refresh_token sess.user_id newSid now)),
            none, none, now + 604800, now⟩ : RefreshSession),
            List.mem_append_right _ (by simp), ?_⟩
          simp [hne]
        · refine ⟨(⟨sess.session_id, sess.user_id, sess.refresh_token_hash,
            some now, some newSid, sess.expires_at, sess.created_at⟩ :
              RefreshSession), ?_, rfl, rfl⟩
          rw [h2]
          unfold revoke_refresh_session_repo create_refresh_session_repo
          rw [List.mem_map]
          exact ⟨sess, List.mem_append_left _ hmem, by simp⟩
  · -- logout
    refine ⟨?_, ?_, trivial⟩
    · rcases logout_route_shape access dir cookie ps.store now with h2 | ⟨sid, h2⟩
      · simp only [step, h2]
        exact hinv
      · simp only [step, h2]
        exact chainInv_filter _ hinv
    · rcases logout_route_shape access dir cookie ps.store now with h2 | ⟨sid, h2⟩
      · exact revokeStepOk_of_subset hinv (by simp only [step, h2]; exact fun s2 h => h)
      · exact revokeStepOk_of_subset hinv
          (by simp only [step, h2]; exact fun s2 h => (List.mem_filter.mp h).1)
  · -- logout-all
    refine ⟨?_, ?_, trivial⟩
    · simp only [step, logout_all_route, cleanup_all_user_sessions_repo]
      exact chainInv_filter _ hinv
    · exact revokeStepOk_of_subset hinv
        (by simp only [step, logout_all_route, cleanup_all_user_sessions_repo]
            exact fun s2 h => (List.mem_filter.mp h).1)
  · -- sweep
    refine ⟨?_, ?_, trivial⟩
    · simp only [step, cleanup_expired_and_revoked_sessions_repo]
      exact chainInv_filter _ (chainInv_filter _ hinv)
    · exact revokeStepOk_of_subset hinv
        (by simp only [step, cleanup_expired_and_revoked_sessions_repo]
            exact fun s2 h => (List.mem_filter.mp (List.mem_filter.mp h).1).1)

/-- The initial state and a first login, for the C6 witness. -/
def c6Ps0 : ProtoState := ⟨[], []⟩

def c6Op0 : AuthOp := .login ⟨7, "user", true⟩ "A" 0

/-- Witness for C6 at the empty state and a concrete login. -/
theorem c6_chain_invariant_witness :
    chainInv (step c6Ps0 c6Op0) = true ∧ revokeStepOk c6Ps0 c6Op0 ∧
      createBeforeRevoke c6Ps0 c6Op0 :=
  c6_chain_invariant_preserved c6Ps0 c6Op0 (by decide) (by decide)

/-- Witness for C10 as amended, at a concrete request with no access
credential. -/
theorem c10_logout_gate_witness :
    logout_route none c10Dir (some (mk_refresh_token 5 "L" 0)) c10Store 100 =
      (Except.error ⟨500, "AttributeError"⟩, c10Store) ∧
    ((none : Option Jwt) = none → (⟨500, "AttributeError"⟩ : HttpError) = ⟨500, "AttributeError"⟩) ∧
    ((⟨500, "AttributeError"⟩ : HttpError).status_code = 401 ∨
     (⟨500, "AttributeError"⟩ : HttpError).status_code = 403 ∨
     (⟨500, "AttributeError"⟩ : HttpError).status_code = 500) :=
  c10_logout_gate none c10Dir (some (mk_refresh_token 5 "L" 0)) c10Store 100
    ⟨500, "AttributeError"⟩ (by decide)

end MGL
